import Mathlib

/-!
# Verification of the forecasting core of the supply-chain dashboard

Shallow embedding of the feature-engineering and forecast-banding pipeline
of the repository (`app.py`, `src/dashboard/dashboard_backend.py`,
`src/scripts/create_improved_model.py`, `src/evaluation/evaluate_best_model.py`).

Python floats are modelled as exact rationals (`ℚ`); calendar dates as
integers counting days; `np.random` draws and transcendental helpers
(`np.sin`, `sqrt`) are opaque parameters, so every definition is a pure,
executable function of its inputs, exactly mirroring the arithmetic of the
source.
-/

namespace SupplyChain

/-! ## Horizon expander (`app.py`, `predict_sales`, lines 1081-1100) -/

/-- `dates = [(datetime.now() + timedelta(days=i)).strftime('%Y-%m-%d')
for i in range(1, days_ahead + 1)]` (app.py:1081-1082).  `ref` is the
reference date as a day number; each entry is the day number `ref + i`. -/
def forecastDates (ref : ℤ) (daysAhead : ℕ) : List ℤ :=
  (List.range' 1 daysAhead).map (fun i : ℕ => ref + (i : ℤ))

/-- One iteration of the loop at app.py:1089-1091:
`daily_pred = base_pred * (1 + trend * i/7) * (1 + np.random.normal(0, 0.15))`
with `predictions.append(max(0.1, daily_pred))`.  `noise i` stands for the
i-th draw of `np.random.normal(0, 0.15)`. -/
def dailyPrediction (basePred trend : ℚ) (noise : ℕ → ℚ) (i : ℕ) : ℚ :=
  max (1/10) (basePred * (1 + trend * i / 7) * (1 + noise i))

/-- The `predictions` list built by the loop `for i in range(request.days_ahead)`
(app.py:1086-1091). -/
def forecastPredictions (basePred trend : ℚ) (noise : ℕ → ℚ) (daysAhead : ℕ) : List ℚ :=
  (List.range daysAhead).map (dailyPrediction basePred trend noise)

/-- Mean of a list, `sum / len` (0 on the empty list, as `ℚ` division by 0 is 0). -/
def listMean (xs : List ℚ) : ℚ := xs.sum / xs.length

/-- Population variance, the square of `np.std` (numpy's default `ddof=0`). -/
def popVariance (xs : List ℚ) : ℚ :=
  ((xs.map (fun x => (x - listMean xs) ^ 2)).sum) / xs.length

/-- Characterisation of `std_dev = np.std(predictions) if len(predictions) > 1
else prediction * 0.25` (app.py:1094).  `np.std` is the non-negative square
root of the population variance; rather than introduce an irrational square
root we characterise the value by its defining property. -/
def IsStdDev (preds : List ℚ) (prediction σ : ℚ) : Prop :=
  if 1 < preds.length then 0 ≤ σ ∧ σ ^ 2 = popVariance preds
  else σ = prediction * (25/100)

/-- `upper_bound = [p + 1.96 * std_dev for p in predictions]` (app.py:1095),
for one entry. -/
def upperBound (σ p : ℚ) : ℚ := p + (196/100) * σ

/-- `lower_bound = [max(0, p - 1.96 * std_dev) for p in predictions]`
(app.py:1096), for one entry. -/
def lowerBound (σ p : ℚ) : ℚ := max 0 (p - (196/100) * σ)

/-- `confidence = min(95, max(80, 92 - (std_dev / prediction * 50) if
prediction > 0 else 85))` (app.py:1099).  Python's conditional expression
binds looser than arithmetic, so the conditional chooses between
`92 - std_dev/prediction*50` and `85` before `max`/`min` apply. -/
def confidence (σ prediction : ℚ) : ℚ :=
  min 95 (max 80 (if 0 < prediction then 92 - σ / prediction * 50 else 85))

/-- Modelled from the spec: `clamp(x, lo, hi)` as used in §4.2 step 5,
the reference formula the confidence claim is compared against. -/
def clamp (x lo hi : ℚ) : ℚ := min hi (max lo x)

/-- The JSON payload assembled at app.py:1114-1123, restricted to the
fields the spec's `ForecastSeries` names (confidence before the
display-rounding `round(confidence, 1)`). -/
structure ForecastResponse where
  dates : List ℤ
  predictions : List ℚ
  upper_bound : List ℚ
  lower_bound : List ℚ
  confidence : ℚ
  revenue_impact : ℚ
  deriving Repr, DecidableEq

/-- The forecast-assembly block of `predict_sales` (app.py:1081-1100),
given the point prediction, the sampled trend and per-day noises, and a
value `σ` for `np.std` (constrained by `IsStdDev` in the theorems). -/
def buildResponse (ref : ℤ) (prediction trend : ℚ) (noise : ℕ → ℚ)
    (daysAhead : ℕ) (sellPrice σ : ℚ) : ForecastResponse :=
  let preds := forecastPredictions prediction trend noise daysAhead
  { dates := forecastDates ref daysAhead
    predictions := preds
    upper_bound := preds.map (upperBound σ)
    lower_bound := preds.map (lowerBound σ)
    confidence := confidence σ prediction
    revenue_impact := preds.sum * sellPrice }

/-- `predict_sales` produces `resp` for this request: some value of
`np.std(predictions)` (resp. the short-series fallback) yields it.
There is no validation of `days_ahead` anywhere on this path. -/
def PredictSalesReturns (ref : ℤ) (prediction trend : ℚ) (noise : ℕ → ℚ)
    (daysAhead : ℕ) (sellPrice : ℚ) (resp : ForecastResponse) : Prop :=
  ∃ σ, IsStdDev (forecastPredictions prediction trend noise daysAhead) prediction σ ∧
    resp = buildResponse ref prediction trend noise daysAhead sellPrice σ

/-! ## Fallback point prediction (`app.py`, `generate_fallback_prediction`,
lines 225-248) -/

/-- The `base_sales` computation of `generate_fallback_prediction`
(app.py:227-242): start at 5.0, category multiplier (FOODS 1.3,
HOUSEHOLD 0.8, HOBBIES 0.9), then price multiplier (0.7 if price > 5.0,
1.4 if price < 2.0). -/
def fallbackBase (catId : String) (sellPrice : ℚ) : ℚ :=
  let b : ℚ := 5
  let b : ℚ :=
    if catId = "FOODS" then b * (13/10)
    else if catId = "HOUSEHOLD" then b * (8/10)
    else if catId = "HOBBIES" then b * (9/10)
    else b
  if 5 < sellPrice then b * (7/10)
  else if sellPrice < 2 then b * (14/10)
  else b

/-- `generate_fallback_prediction` (app.py:225-248): `variation` stands for
the draw `np.random.normal(1.0, 0.2)`; the result is
`max(0.1, base_sales * variation)`. -/
def generateFallbackPrediction (catId : String) (sellPrice variation : ℚ) : ℚ :=
  max (1/10) (fallbackBase catId sellPrice * variation)

/-- Modelled from the spec (§4.1a): the category multiplier, for comparison
with `fallbackBase`. -/
def catMultiplier (c : String) : ℚ :=
  if c = "FOODS" then 13/10
  else if c = "HOUSEHOLD" then 8/10
  else if c = "HOBBIES" then 9/10
  else 1

/-- Modelled from the spec (§4.1a): the price multiplier, for comparison
with `fallbackBase`. -/
def priceMultiplier (p : ℚ) : ℚ :=
  if 5 < p then 7/10 else if p < 2 then 14/10 else 1

/-! ## Feature builder (`app.py`, `prepare_features_for_model`, lines 150-223) -/

/-- The `base_sales` computation of `prepare_features_for_model`
(app.py:154-169).  Note its constants differ from
`generate_fallback_prediction`: FOODS multiplies by 1.2 (not 1.3) and a
price < 2.0 multiplies by 1.3 (not 1.4). -/
def prepBaseSales (catId : String) (price : ℚ) : ℚ :=
  let b : ℚ := 5
  let b : ℚ :=
    if catId = "FOODS" then b * (12/10)
    else if catId = "HOUSEHOLD" then b * (8/10)
    else if catId = "HOBBIES" then b * (9/10)
    else b
  if 5 < price then b * (7/10)
  else if price < 2 then b * (13/10)
  else b

/-- The request fields consumed by `prepare_features_for_model`
(the `PredictionRequest` of app.py:58-65; no field carries any
validation constraint). -/
structure FeatureContext where
  item_id : String
  store_id : String
  dept_id : String
  cat_id : String
  state_id : String
  sell_price : ℚ
  deriving Repr, DecidableEq

/-- The ambient quantities `prepare_features_for_model` reads beside its
arguments: Python string hashes already reduced modulo their divisor,
the `datetime.now()` calendar fields, `sin(2π·day_of_year/365)`, and the
`np.random.normal` draws for the lag/trend/price features. -/
structure AmbientParams where
  hashItemMod1000 : ℕ
  hashDeptMod100 : ℕ
  hashCatMod10 : ℕ
  hashStoreMod10 : ℕ
  hashStateMod5 : ℕ
  dayOfWeek : ℕ
  month : ℕ
  dayOfMonth : ℕ
  weekOfYear : ℕ
  sinDayOfYear : ℚ
  lagNoise1 : ℚ
  lagNoise7 : ℚ
  lagNoise14 : ℚ
  lagNoise28 : ℚ
  lagNoise56 : ℚ
  trendNoise7 : ℚ
  trendNoise28 : ℚ
  priceChangeNoise : ℚ
  deriving Repr, DecidableEq

/-- `prepare_features_for_model` (app.py:150-223): the feature dictionary in
its insertion order, as (name, value) pairs.  It validates nothing: every
input, including non-positive prices and empty identifiers, flows through. -/
def prepareFeaturesForModel (ctx : FeatureContext) (amb : AmbientParams) :
    List (String × ℚ) :=
  let price := ctx.sell_price
  let baseSales := prepBaseSales ctx.cat_id price
  let seasonalFactor : ℚ := 1 + (1/10) * amb.sinDayOfYear
  let rollingBase := baseSales * seasonalFactor
  [ ("item_id_encoded", (amb.hashItemMod1000 : ℚ)),
    ("dept_id_encoded", (amb.hashDeptMod100 : ℚ)),
    ("cat_id_encoded", (amb.hashCatMod10 : ℚ)),
    ("store_id_encoded", (amb.hashStoreMod10 : ℚ)),
    ("state_id_encoded", (amb.hashStateMod5 : ℚ)),
    ("sell_price", price),
    ("day_of_week", (amb.dayOfWeek : ℚ)),
    ("month", (amb.month : ℚ)),
    ("quarter", (((amb.month - 1) / 3 + 1 : ℕ) : ℚ)),
    ("is_weekend", if 5 ≤ amb.dayOfWeek then 1 else 0),
    ("day_of_month", (amb.dayOfMonth : ℚ)),
    ("week_of_year", (amb.weekOfYear : ℚ)),
    ("lag_1", max 0 (baseSales * seasonalFactor + amb.lagNoise1)),
    ("lag_7", max 0 (baseSales * seasonalFactor + amb.lagNoise7)),
    ("lag_14", max 0 (baseSales * seasonalFactor + amb.lagNoise14)),
    ("lag_28", max 0 (baseSales * seasonalFactor + amb.lagNoise28)),
    ("lag_56", max 0 (baseSales * seasonalFactor + amb.lagNoise56)),
    ("rolling_mean_3", rollingBase),
    ("rolling_mean_7", rollingBase),
    ("rolling_mean_14", rollingBase),
    ("rolling_mean_28", rollingBase),
    ("rolling_std_3", max (1/10) (rollingBase * (2/10))),
    ("rolling_std_7", max (1/10) (rollingBase * (25/100))),
    ("rolling_std_14", max (1/10) (rollingBase * (3/10))),
    ("rolling_std_28", max (1/10) (rollingBase * (35/100))),
    ("rolling_max_7", rollingBase * (15/10)),
    ("rolling_max_14", rollingBase * (17/10)),
    ("rolling_min_7", max 0 (rollingBase * (5/10))),
    ("rolling_min_14", max 0 (rollingBase * (3/10))),
    ("sales_trend_7", amb.trendNoise7),
    ("sales_trend_28", amb.trendNoise28),
    ("price_change", amb.priceChangeNoise),
    ("price_vs_mean", price / 3),
    ("is_event", if amb.dayOfWeek = 4 then 1 else 0) ]

/-- The 34-name feature schema of the trained model
(`model_info["feature_columns"]`, app.py:123-131). -/
def featureSchema : List String :=
  [ "item_id_encoded", "dept_id_encoded", "cat_id_encoded", "store_id_encoded",
    "state_id_encoded", "sell_price", "day_of_week", "month", "quarter",
    "is_weekend", "day_of_month", "week_of_year",
    "lag_1", "lag_7", "lag_14", "lag_28", "lag_56",
    "rolling_mean_3", "rolling_mean_7", "rolling_mean_14", "rolling_mean_28",
    "rolling_std_3", "rolling_std_7", "rolling_std_14", "rolling_std_28",
    "rolling_max_7", "rolling_max_14", "rolling_min_7", "rolling_min_14",
    "sales_trend_7", "sales_trend_28", "price_change", "price_vs_mean",
    "is_event" ]

/-! ## Categorical encoding (`src/evaluation/evaluate_best_model.py`,
`prepare_evaluation_data`, lines 74-84) -/

/-- A fitted scikit-learn `LabelEncoder`: its `classes_` array, without
duplicates; `transform` returns the index of a value in `classes_`. -/
structure LabelEncoder where
  classes : List String
  deriving Repr, DecidableEq

/-- `encoder.transform([x])[0]`: the position of `x` in `classes_`. -/
def LabelEncoder.transform (e : LabelEncoder) (x : String) : ℕ :=
  e.classes.indexOf x

/-- The per-column encoding of `prepare_evaluation_data`
(evaluate_best_model.py:77-84):
`encoders[col].transform([x])[0] if x in encoders[col].classes_ else 0`
when `col in encoders`, and the constant 0 when the column has no encoder. -/
def encodeCategory (encoders : String → Option LabelEncoder)
    (col : String) (x : String) : ℕ :=
  match encoders col with
  | some e => if x ∈ e.classes then e.transform x else 0
  | none => 0

/-! ## Rolling features (`src/scripts/create_improved_model.py`,
`create_improved_model`, lines 104-108 and the `fillna(0)` clean-up at
lines 122-123) -/

/-- The trailing window pandas `rolling(window, min_periods=1)` sees at
row `i` of series `xs`: elements `max(0, i+1-window) .. i`. -/
def rollingWindow (window : ℕ) (xs : List ℚ) (i : ℕ) : List ℚ :=
  (xs.take (i + 1)).drop (i + 1 - window)

/-- `rolling(window, min_periods=1).mean()` at row `i`: defined (non-NaN)
as soon as the window holds at least one observation. -/
def rollingMeanMP1 (window : ℕ) (xs : List ℚ) (i : ℕ) : Option ℚ :=
  let win := rollingWindow window xs i
  if win.length = 0 then none else some (listMean win)

/-- Sample variance (pandas `std`'s default `ddof=1`): NaN (`none`) on
fewer than two observations, else `Σ(x-mean)² / (n-1)`. -/
def sampleVariance (l : List ℚ) : Option ℚ :=
  if 2 ≤ l.length then
    some (((l.map (fun x => (x - listMean l) ^ 2)).sum) / ((l.length - 1 : ℕ) : ℚ))
  else none

/-- `rolling(window, min_periods=1).std()` at row `i`: the square root of
the sample variance when that is defined, NaN (`none`) otherwise.  The
square root is an opaque parameter so the definition stays exact. -/
def rollingStdMP1 (window : ℕ) (xs : List ℚ) (i : ℕ) (sqrtFn : ℚ → ℚ) : Option ℚ :=
  (sampleVariance (rollingWindow window xs i)).map sqrtFn

/-- The `melted_data.fillna(0)` clean-up (create_improved_model.py:122-123):
a NaN cell becomes 0 in the produced feature matrix. -/
def fillna0 (o : Option ℚ) : ℚ := o.getD 0

/-! ## `safe_mape` (`app.py` lines 142-148 =
`src/scripts/create_improved_model.py` lines 18-24) -/

/-- `safe_mape(y_true, y_pred)`: mask out entries with `y_true == 0`;
if nothing remains return 0.0, else the mean of `|(t - p)/t|` over the
masked pairs, times 100. -/
def safe_mape (yTrue yPred : List ℚ) : ℚ :=
  let pairs := yTrue.zip yPred
  let masked := pairs.filter (fun tp => tp.1 ≠ 0)
  if masked.length = 0 then 0
  else ((masked.map (fun tp => |(tp.1 - tp.2) / tp.1|)).sum / masked.length) * 100

/-! ## Helper lemmas -/

lemma forecastPredictions_length (basePred trend : ℚ) (noise : ℕ → ℚ) (n : ℕ) :
    (forecastPredictions basePred trend noise n).length = n := by
  rw [forecastPredictions, List.length_map, List.length_range]

lemma tenth_le_of_mem_forecastPredictions {basePred trend : ℚ} {noise : ℕ → ℚ}
    {n : ℕ} {p : ℚ} (hp : p ∈ forecastPredictions basePred trend noise n) :
    1/10 ≤ p := by
  rw [forecastPredictions, List.mem_map] at hp
  obtain ⟨i, -, rfl⟩ := hp
  exact le_max_left _ _

lemma stdDev_nonneg {preds : List ℚ} {prediction σ : ℚ}
    (hpred : 0 ≤ prediction) (h : IsStdDev preds prediction σ) : 0 ≤ σ := by
  rw [IsStdDev] at h
  split at h
  · exact h.1
  · rw [h]; positivity

/-! ## Claim theorems -/

/-- C1: for every `days_ahead ≥ 1`, the forecast block of `predict_sales`
produces a series of exactly `days_ahead` entries whose dates are
`reference_date + i` for `i` in `1..days_ahead` — strictly increasing
consecutive calendar days starting one day after the reference date,
with no gaps. -/
theorem expand_horizon_dates (ref : ℤ) (basePred trend : ℚ) (noise : ℕ → ℚ)
    (n : ℕ) (_hn : 1 ≤ n) :
    (forecastDates ref n).length = n ∧
    (forecastPredictions basePred trend noise n).length = n ∧
    (∀ k, k < n → (forecastDates ref n)[k]? = some (ref + ((k : ℤ) + 1))) ∧
    List.Chain' (fun a b => b = a + 1) (forecastDates ref n) := by
  have hlen : (forecastDates ref n).length = n := by
    rw [forecastDates, List.length_map, List.length_range']
  refine ⟨hlen, forecastPredictions_length _ _ _ _, ?_, ?_⟩
  · intro k hk
    have hk' : k < (forecastDates ref n).length := by rw [hlen]; exact hk
    rw [List.getElem?_eq_getElem hk']
    simp only [forecastDates, List.getElem_map, List.getElem_range'_1]
    push_cast
    ring_nf
  · rw [List.chain'_iff_get]
    intro i h
    rw [List.get_eq_getElem, List.get_eq_getElem]
    simp only [forecastDates, List.getElem_map, List.getElem_range'_1]
    push_cast
    ring

/-- C1 witness: a 3-day horizon from day 19723 (2024-01-01). -/
theorem expand_horizon_dates_holds :
    (forecastDates 19723 3).length = 3 ∧
    (forecastPredictions 5 0 (fun _ => 0) 3).length = 3 ∧
    (∀ k : ℕ, k < 3 → (forecastDates 19723 3)[k]? = some (19723 + ((k : ℤ) + 1))) ∧
    List.Chain' (fun a b => b = a + 1) (forecastDates 19723 3) :=
  expand_horizon_dates 19723 5 0 (fun _ => 0) 3 (by norm_num)

/-- C2: with `std_dev` the value `np.std` returns for the generated series
(fallback `prediction * 0.25` below 2 points) and a non-negative point
prediction, every entry satisfies
`0 ≤ lower_bound ≤ point ≤ upper_bound`, all three non-negative. -/
theorem forecast_bounds_invariant (basePred trend : ℚ) (noise : ℕ → ℚ) (n : ℕ)
    (σ : ℚ) (hb : 0 ≤ basePred)
    (hσ : IsStdDev (forecastPredictions basePred trend noise n) basePred σ) :
    ∀ p ∈ forecastPredictions basePred trend noise n,
      0 ≤ lowerBound σ p ∧ lowerBound σ p ≤ p ∧ p ≤ upperBound σ p ∧
      0 ≤ p ∧ 0 ≤ upperBound σ p := by
  intro p hp
  have hσ0 : 0 ≤ σ := stdDev_nonneg hb hσ
  have hp0 : (0 : ℚ) ≤ p :=
    le_trans (by norm_num) (tenth_le_of_mem_forecastPredictions hp)
  have hprod : (0 : ℚ) ≤ (196/100) * σ := by positivity
  refine ⟨le_max_left _ _, ?_, ?_, hp0, ?_⟩
  · exact max_le hp0 (by linarith)
  · rw [upperBound]; linarith
  · rw [upperBound]; linarith

/-- C2 witness: a 2-day series with prediction 1 and no noise, whose
standard deviation is 0. -/
theorem forecast_bounds_invariant_holds :
    0 ≤ lowerBound 0 1 ∧ lowerBound 0 1 ≤ 1 ∧ (1 : ℚ) ≤ upperBound 0 1 ∧
    (0 : ℚ) ≤ 1 ∧ 0 ≤ upperBound 0 1 :=
  forecast_bounds_invariant 1 0 (fun _ => 0) 2 0 (by norm_num)
    (by rw [IsStdDev]; norm_num [forecastPredictions, popVariance, listMean,
          List.range, dailyPrediction, List.range.loop])
    1 (by norm_num [forecastPredictions, List.range_succ, dailyPrediction, max_def])

/-- C3: the aggregate confidence is
`clamp(92 - (std_dev/prediction)*50, 80, 95)` when the point prediction is
positive, and exactly 85 otherwise. -/
theorem confidence_formula (σ prediction : ℚ) :
    (0 < prediction → confidence σ prediction =
      clamp (92 - σ / prediction * 50) 80 95) ∧
    (¬ 0 < prediction → confidence σ prediction = 85) := by
  constructor
  · intro h
    rw [confidence, clamp, if_pos h]
  · intro h
    rw [confidence, if_neg h]
    norm_num

/-- C3 witness: `σ = 1`, `prediction = 4` (a case where the clamp is active:
`92 - 12.5 = 79.5` is clamped up to 80). -/
theorem confidence_formula_holds :
    confidence 1 4 = clamp (92 - 1 / 4 * 50) 80 95 :=
  (confidence_formula 1 4).1 (by norm_num)

/-- C4: with `point_estimate = 0` the loop never raises (it is a total
function) and every daily point is the positive floor 0.1 — never zero
or negative. -/
theorem zero_point_estimate_floored (trend : ℚ) (noise : ℕ → ℚ) (n : ℕ) :
    ∀ p ∈ forecastPredictions 0 trend noise n, p = 1/10 ∧ 0 < p := by
  intro p hp
  rw [forecastPredictions, List.mem_map] at hp
  obtain ⟨i, -, rfl⟩ := hp
  rw [dailyPrediction, zero_mul, zero_mul]
  norm_num

/-- C4 witness: the single entry of a 1-day zero-estimate series. -/
theorem zero_point_estimate_floored_holds :
    (1/10 : ℚ) = 1/10 ∧ (0 : ℚ) < 1/10 :=
  zero_point_estimate_floored 0 (fun _ => 0) 1 (1/10)
    (by norm_num [forecastPredictions, List.range_succ, dailyPrediction, max_def])

/-- C5 counterexample: with `days_ahead = 0`, `predict_sales` does not fail —
it returns a complete response (an empty forecast series with
confidence 80), so no `InvalidHorizon` error exists on this path. -/
theorem horizon_zero_returns_response :
    PredictSalesReturns 19723 4 0 (fun _ => 0) 0 (299/100)
      { dates := [], predictions := [], upper_bound := [], lower_bound := [],
        confidence := 80, revenue_impact := 0 } := by
  refine ⟨1, ?_, ?_⟩
  · rw [IsStdDev]
    norm_num [forecastPredictions]
  · rw [buildResponse]
    norm_num [forecastPredictions, forecastDates, confidence, max_def, min_def]

/-- C5 amended: for `days_ahead = 0` the code does not fail and produces a
response whose forecast series is empty (0 entries in every list). -/
theorem horizon_zero_empty_series (ref : ℤ) (prediction trend : ℚ)
    (noise : ℕ → ℚ) (sellPrice : ℚ) (resp : ForecastResponse)
    (h : PredictSalesReturns ref prediction trend noise 0 sellPrice resp) :
    resp.dates = [] ∧ resp.predictions = [] ∧
    resp.upper_bound = [] ∧ resp.lower_bound = [] := by
  obtain ⟨σ, -, rfl⟩ := h
  refine ⟨?_, ?_, ?_, ?_⟩ <;>
    simp [buildResponse, forecastDates, forecastPredictions]

/-- C5 amended witness: the concrete zero-horizon response. -/
theorem horizon_zero_empty_series_holds :
    (ForecastResponse.mk [] [] [] [] 80 0).dates = [] ∧
    (ForecastResponse.mk [] [] [] [] 80 0).predictions = [] ∧
    (ForecastResponse.mk [] [] [] [] 80 0).upper_bound = [] ∧
    (ForecastResponse.mk [] [] [] [] 80 0).lower_bound = [] :=
  horizon_zero_empty_series 19723 4 0 (fun _ => 0) (299/100) _
    ⟨1, by rw [IsStdDev]; norm_num [forecastPredictions],
      by rw [buildResponse]
         norm_num [forecastPredictions, forecastDates, confidence, max_def, min_def]⟩

/-- C6 counterexample: with `sell_price = -1.0` and empty `item_id` and
`store_id`, `prepare_features_for_model` does not fail — it returns a
complete 34-field feature vector (here with every ambient quantity 0),
so no `InvalidInput` error exists on this path. -/
theorem invalid_input_still_builds_features :
    (prepareFeaturesForModel
      { item_id := "", store_id := "", dept_id := "", cat_id := "FOODS",
        state_id := "", sell_price := -1 }
      ⟨0, 0, 0, 0, 0, 0, 0, 0, 0, 0, 0, 0, 0, 0, 0, 0, 0, 0⟩).map Prod.fst
      = featureSchema ∧
    ("sell_price", (-1 : ℚ)) ∈ prepareFeaturesForModel
      { item_id := "", store_id := "", dept_id := "", cat_id := "FOODS",
        state_id := "", sell_price := -1 }
      ⟨0, 0, 0, 0, 0, 0, 0, 0, 0, 0, 0, 0, 0, 0, 0, 0, 0, 0⟩ := by
  constructor
  · rfl
  · decide

/-- C6 amended: `prepare_features_for_model` performs no input validation —
for every request, including `sell_price ≤ 0` and empty identifiers, it
returns a complete feature vector carrying exactly the 34 schema names. -/
theorem build_features_no_validation (ctx : FeatureContext) (amb : AmbientParams) :
    (prepareFeaturesForModel ctx amb).map Prod.fst = featureSchema := rfl

/-- C7: the cold-start base estimate of `generate_fallback_prediction`
factors as 5.0 times the category multiplier (1.3 FOODS, 0.8 HOUSEHOLD,
0.9 HOBBIES, else 1) times the price multiplier (0.7 above 5.0, 1.4 below
2.0, else 1); in particular FOODS at price 2.99 gives exactly 6.5 before
noise. -/
theorem fallback_base_heuristic (catId : String) (sellPrice : ℚ) :
    fallbackBase catId sellPrice
      = 5 * catMultiplier catId * priceMultiplier sellPrice ∧
    fallbackBase "FOODS" (299/100) = 13/2 ∧
    generateFallbackPrediction "FOODS" (299/100) 1 = 13/2 := by
  refine ⟨?_, by norm_num [fallbackBase], ?_⟩
  · simp only [fallbackBase, catMultiplier, priceMultiplier]
    split_ifs <;> ring
  · rw [generateFallbackPrediction]
    norm_num [fallbackBase, max_def]

/-- C8: a categorical value not among the classes of the persisted encoder
(or a column with no encoder at all) encodes to the fallback code 0; the
encoding is a total function, so it never raises. -/
theorem unseen_category_encodes_zero (encoders : String → Option LabelEncoder)
    (col x : String) (h : ∀ e, encoders col = some e → x ∉ e.classes) :
    encodeCategory encoders col x = 0 := by
  rw [encodeCategory]
  cases henc : encoders col with
  | none => rfl
  | some e => exact if_neg (h e henc)

/-- C8 witness: the value "HOME_1_999" is not among the two known classes
and encodes to 0. -/
theorem unseen_category_encodes_zero_holds :
    encodeCategory (fun _ => some ⟨["FOODS_3_090", "FOODS_3_586"]⟩)
      "item_id" "HOME_1_999" = 0 :=
  unseen_category_encodes_zero _ "item_id" "HOME_1_999"
    (fun e he => by cases he; decide)

/-- C9: with `min_periods=1`, a one-element history gives a rolling mean
equal to that element (never NaN), and the rolling std — NaN from pandas'
`ddof=1` on a single observation — becomes the well-defined 0 after the
`fillna(0)` clean-up, for every window size. -/
theorem rolling_min_periods_one (window : ℕ) (hw : 1 ≤ window) (a : ℚ)
    (sqrtFn : ℚ → ℚ) :
    rollingMeanMP1 window [a] 0 = some a ∧
    fillna0 (rollingMeanMP1 window [a] 0) = a ∧
    fillna0 (rollingStdMP1 window [a] 0 sqrtFn) = 0 := by
  have hwin : rollingWindow window [a] 0 = [a] := by
    rw [rollingWindow]
    rw [Nat.sub_eq_zero_of_le hw]
    rfl
  refine ⟨?_, ?_, ?_⟩
  · rw [rollingMeanMP1, hwin]
    simp [listMean]
  · rw [fillna0, rollingMeanMP1, hwin]
    simp [listMean]
  · rw [fillna0, rollingStdMP1, hwin, sampleVariance]
    norm_num

/-- C9 witness: window 3 over the one-element history `[7]`. -/
theorem rolling_min_periods_one_holds :
    rollingMeanMP1 3 [7] 0 = some 7 ∧
    fillna0 (rollingMeanMP1 3 [7] 0) = 7 ∧
    fillna0 (rollingStdMP1 3 [7] 0 id) = 0 :=
  rolling_min_periods_one 3 (by norm_num) 7 id

/-- C10: `safe_mape` is total and never divides by a zero true value:
appending a pair whose true value is 0 leaves the result unchanged (such
entries are excluded from the mean), and when every true value is 0 the
result is exactly 0. -/
theorem safe_mape_masks_zeros (yTrue yPred : List ℚ) (q : ℚ)
    (h : yTrue.length = yPred.length) :
    safe_mape (yTrue ++ [0]) (yPred ++ [q]) = safe_mape yTrue yPred ∧
    ((∀ t ∈ yTrue, t = 0) → safe_mape yTrue yPred = 0) := by
  constructor
  · have hfil1 : ((yTrue ++ [0]).zip (yPred ++ [q])).filter (fun tp => tp.1 ≠ 0)
        = (yTrue.zip yPred).filter (fun tp => tp.1 ≠ 0) := by
      rw [List.zip_append h, List.filter_append]
      simp
    simp only [safe_mape]
    rw [hfil1]
  · intro hz
    have hfil : (yTrue.zip yPred).filter (fun tp => tp.1 ≠ 0) = [] := by
      rw [List.filter_eq_nil_iff]
      rintro ⟨t, p⟩ htp
      have h1 : t ∈ yTrue := (List.of_mem_zip htp).1
      simp [hz t h1]
    simp only [safe_mape]
    rw [hfil]
    simp

/-- C10 witness: true values `[1, 0]` — the zero entry is excluded — and
the all-zero case via the same theorem at `[0]`-free input. -/
theorem safe_mape_masks_zeros_holds :
    safe_mape ([1, 0] ++ [0]) ([1, 5] ++ [7]) = safe_mape [1, 0] [1, 5] ∧
    ((∀ t ∈ [(1 : ℚ), 0], t = 0) → safe_mape [1, 0] [1, 5] = 0) :=
  safe_mape_masks_zeros [1, 0] [1, 5] 7 (by rfl)

end SupplyChain
